import Mathlib

/-!
Verification of `src/sandbox/genbank2gff.py`, a script that converts a
GenBank-format annotation file to GFF by streaming `SeqIO.parse` records
through `GFF.write`.

The script itself (lines 15-25 of the source) is embedded faithfully as
`runScript` below.  The two external libraries (`Bio.SeqIO`'s GenBank parser
and `BCBio.GFF`'s writer) are not part of this repository; their observable
behaviour is modelled from the spec's description of them as black-box
collaborators (spec sections 4 and 6).
-/

/-- A feature of a sequence record: a type, a 1-based location range, a
strand, and a mapping of qualifier keys to values (spec section 3). -/
structure Feature where
  ftype : String
  fstart : Nat
  fend : Nat
  strand : String
  qualifiers : List (String × String)
deriving DecidableEq, Repr

/-- A sequence record: an identifier and an ordered list of annotated
features (spec section 3).  Constructed by the GenBank parser, consumed by
the GFF writer. -/
structure Record where
  id : String
  features : List Feature
deriving DecidableEq, Repr

/-- One tab-delimited GFF feature line, before rendering to text. -/
structure GffLine where
  seqid : String
  ftype : String
  fstart : Nat
  fend : Nat
  strand : String
  qualifiers : List (String × String)
deriving DecidableEq, Repr

/-- Modelled from the spec: `BCBio.GFF`'s serialization of a single record
produces one feature line per feature, each carrying the record's
identifier as its sequence id (spec section 4 step 4, section 6). -/
def gffLinesOfRecord (r : Record) : List GffLine :=
  r.features.map (fun f => ⟨r.id, f.ftype, f.fstart, f.fend, f.strand, f.qualifiers⟩)

/-- Modelled from the spec: `GFF.write` serializes each record of the lazy
sequence in order, appending its lines to the output (spec section 4 step 4:
"preserving input order"). -/
def GFF_write_lines : List Record → List GffLine
  | [] => []
  | r :: rest => gffLinesOfRecord r ++ GFF_write_lines rest

/-- Render one GFF attribute pair. -/
def renderQualifier (q : String × String) : String :=
  q.1 ++ "=" ++ q.2 ++ ";"

/-- Render one GFF line as a tab-delimited record: sequence-id, source,
type, start, end, score, strand, frame, attributes (spec section 6).  The
source, score and frame columns are not determined by the spec and are
rendered as ".". -/
def renderLine (l : GffLine) : String :=
  l.seqid ++ "\t.\t" ++ l.ftype ++ "\t" ++ toString l.fstart ++ "\t" ++
    toString l.fend ++ "\t.\t" ++ l.strand ++ "\t.\t" ++
    String.join (l.qualifiers.map renderQualifier) ++ "\n"

/-- The full text `GFF.write` emits for a list of records. -/
def GFF_write_text (recs : List Record) : String :=
  String.join ((GFF_write_lines recs).map renderLine)

/-- Modelled from the spec: the state of the filesystem at the two paths
named on the command line.  `input` denotes what the lazy GenBank parser
sees at the input path: `none` if the file does not exist or is unreadable
(`open(in_file)` raises `IOError`); `some (recs, bad)` means the parser
yields the records `recs` and then either reaches end of input
(`bad = false`) or hits malformed GenBank syntax and raises a parse failure
(`bad = true`) (spec section 4 steps 1 and 3).  `outWritable` is whether
`open(out_file, "w")` can succeed; `outputPre` is the contents of a
pre-existing file at the output path (`none` = no such file). -/
structure World where
  input : Option (List Record × Bool)
  outWritable : Bool
  outputPre : Option String
deriving DecidableEq, Repr

/-- How one invocation of the script terminates. -/
inductive Outcome where
  /-- `OptionParser` saw the version flag: it prints the version string and
  exits 0 (source line 13: `version = "0.1"`). -/
  | versionExit (s : String)
  /-- `OptionParser` saw a help flag: usage text, exit 0. -/
  | helpExit
  /-- `OptionParser` saw an unrecognized option: usage error, exit 2. -/
  | usageError
  /-- Uncaught `IndexError` from `sys.argv[1]` or `sys.argv[2]` (source
  lines 19-20): the interpreter exits 1. -/
  | indexError
  /-- Uncaught `IOError` from `open` (source lines 21-22): exit 1. -/
  | ioError
  /-- Uncaught parse failure raised inside `GFF.write(SeqIO.parse(...))`
  (source line 23): exit 1. -/
  | parseError
  /-- The script ran to completion: exit 0. -/
  | success
deriving DecidableEq, Repr

/-- The process exit status for each outcome: 0 on success, version or
help; 2 for an `OptionParser` usage error; 1 for an uncaught exception. -/
def exitCode : Outcome → Nat
  | .versionExit _ => 0
  | .helpExit => 0
  | .usageError => 2
  | .indexError => 1
  | .ioError => 1
  | .parseError => 1
  | .success => 0

/-- The spec's `ArgumentError` kind (spec section 7): a command-line usage
error raised by the option parser, the only argument-parsing error
mechanism in the program. -/
def Outcome.isArgumentError : Outcome → Bool
  | .usageError => true
  | _ => false

/-- A token that `optparse` treats as an option: it starts with "-" and is
not the bare "-" (which counts as a positional argument). -/
def isOptionToken (s : String) : Bool :=
  match s.data with
  | '-' :: _ :: _ => true
  | _ => false

/-- Embedding of `parser.parse_args()` (source lines 15-16).  The only
options defined are the automatic `--version` and `--help`/`-h`; `optparse`
scans the argument list left to right, treats `--` as the end of options,
acts on the first recognized flag, and errors out on any other token that
looks like an option.  Tokens not starting with `-` (and the bare `-`) are
positional and are skipped over.  Returns `some o` when `parse_args` itself
terminates the process, `none` when control reaches line 19. -/
def parseOptions : List String → Option Outcome
  | [] => none
  | a :: rest =>
    if a = "--" then none
    else if a = "--version" then some (.versionExit "0.1")
    else if a = "--help" ∨ a = "-h" then some .helpExit
    else if isOptionToken a then some .usageError
    else parseOptions rest

/-- The result of one invocation: how the process exited, the contents at
the output path afterwards (`none` = no file there), and whether each
handle was opened and whether it was closed by the script's explicit
`close()` calls (source lines 24-25). -/
structure RunResult where
  outcome : Outcome
  output : Option String
  inOpened : Bool
  outOpened : Bool
  inClosed : Bool
  outClosed : Bool
deriving DecidableEq, Repr

/-- Embedding of the script body (source lines 15-25), line by line:
`parser.parse_args()`; `in_file = sys.argv[1]`; `out_file = sys.argv[2]`
(each raising `IndexError` when the index is out of range — `argv` here is
the full `sys.argv`, program name included); `open(in_file)`;
`open(out_file, "w")` (truncate-or-create); `GFF.write(SeqIO.parse(...))`,
which writes the lines of every successfully parsed record and then raises
if the parser hits malformed syntax; and the two `close()` calls, reached
only when `GFF.write` returns normally. -/
def runScript (argv : List String) (w : World) : RunResult :=
  match parseOptions (argv.drop 1) with
  | some o => ⟨o, w.outputPre, false, false, false, false⟩
  | none =>
    match argv[1]?, argv[2]? with
    | none, _ => ⟨.indexError, w.outputPre, false, false, false, false⟩
    | some _, none => ⟨.indexError, w.outputPre, false, false, false, false⟩
    | some _, some _ =>
      match w.input with
      | none => ⟨.ioError, w.outputPre, false, false, false, false⟩
      | some (recs, bad) =>
        if w.outWritable then
          if bad then
            ⟨.parseError, some (GFF_write_text recs), true, true, false, false⟩
          else
            ⟨.success, some (GFF_write_text recs), true, true, true, true⟩
        else
          ⟨.ioError, w.outputPre, true, false, false, false⟩

/-- The sequence ids of a list of GFF lines, in output order. -/
def seqIds (ls : List GffLine) : List String :=
  ls.map GffLine.seqid

/-- The distinct elements of a list of strings, in order of first
occurrence. -/
def firstIds : List String → List String
  | [] => []
  | a :: rest => a :: (firstIds rest).filter (· ≠ a)

/-- The identifier trace of a record list: each record's id, repeated once
per feature, records in order. -/
def idTrace : List Record → List String
  | [] => []
  | r :: rest => List.replicate r.features.length r.id ++ idTrace rest

lemma map_seqid_gffLinesOfRecord (r : Record) :
    (gffLinesOfRecord r).map GffLine.seqid = List.replicate r.features.length r.id := by
  unfold gffLinesOfRecord
  induction r.features with
  | nil => rfl
  | cons f fs ih => simp_all [List.replicate_succ]

lemma seqIds_GFF_write_lines (recs : List Record) :
    seqIds (GFF_write_lines recs) = idTrace recs := by
  induction recs with
  | nil => rfl
  | cons r rest ih =>
    simp only [GFF_write_lines, idTrace, seqIds, List.map_append, ← ih]
    simp [seqIds, map_seqid_gffLinesOfRecord]

lemma parseOptions_ne_success (l : List String) (o : Outcome)
    (h : parseOptions l = some o) : o ≠ Outcome.success := by
  induction l with
  | nil => simp [parseOptions] at h
  | cons a rest ih =>
    simp only [parseOptions] at h
    split at h
    · exact absurd h (by simp)
    · split at h
      · cases h; simp
      · split at h
        · cases h; simp
        · split at h
          · cases h; simp
          · exact ih h

lemma firstIds_replicate_append (k : Nat) (a : String) (l : List String) :
    firstIds (List.replicate k a ++ l) =
      if k = 0 then firstIds l else a :: (firstIds l).filter (· ≠ a) := by
  induction k with
  | zero => simp
  | succ k ih =>
    rw [List.replicate_succ, List.cons_append]
    simp only [firstIds, ih]
    rcases Nat.eq_zero_or_pos k with hk | hk
    · simp [hk]
    · have hk' : k ≠ 0 := by omega
      rw [if_neg hk', if_neg (Nat.succ_ne_zero k)]
      congr 1
      simp [List.filter_cons, List.filter_filter]

lemma firstIds_idTrace (recs : List Record)
    (hdist : (recs.map Record.id).Pairwise (· ≠ ·))
    (hfeat : ∀ r ∈ recs, r.features ≠ []) :
    firstIds (idTrace recs) = recs.map Record.id := by
  induction recs with
  | nil => rfl
  | cons r rest ih =>
    simp only [List.map_cons, List.pairwise_cons] at hdist
    have hne : r.features.length ≠ 0 := by
      have h0 := hfeat r (by simp)
      simpa [List.length_eq_zero] using h0
    simp only [idTrace, firstIds_replicate_append]
    rw [if_neg hne, ih hdist.2 (fun x hx => hfeat x (by simp [hx]))]
    simp only [List.map_cons]
    congr 1
    apply List.filter_eq_self.2
    intro b hb
    have hbne : b ≠ r.id := fun h => hdist.1 b hb h.symm
    simpa using hbne

/-- Claim C1 (corrected): the source has no scoped acquisition; the two
`close()` calls on lines 24-25 run only when `GFF.write` returns normally,
so the handles are closed by the program exactly on the successful exit
path and on no failing one. -/
theorem c1_close_iff_success (argv : List String) (w : World) :
    ((runScript argv w).inClosed ∧ (runScript argv w).outClosed) ↔
      (runScript argv w).outcome = Outcome.success := by
  unfold runScript
  split
  · rename_i o heq
    have ho := parseOptions_ne_success _ _ heq
    simp [ho]
  · split
    · simp
    · simp
    · split
      · simp
      · split
        · split
          · simp
          · simp
        · simp

/-- Claim C1, counterexample to the claim as stated: on an input whose
GenBank contents are malformed, the run opens both handles, exits with a
parse failure, and closes neither handle. -/
theorem c1_counterexample :
    let r := runScript ["genbank2gff.py", "in.gb", "out.gff"]
      ⟨some ([⟨"SEQ1", [⟨"source", 1, 100, "+", []⟩]⟩], true), true, none⟩
    r.inOpened = true ∧ r.outOpened = true ∧ r.inClosed = false ∧
      r.outClosed = false ∧ r.outcome = Outcome.parseError := by
  decide

lemma getElem?_of_lt (argv : List String) (i : Nat) (h : i < argv.length) :
    argv[i]? = some argv[i] := List.getElem?_eq_getElem h

/-- Claim C2: when the input path does not reference an existing readable
file, `open(in_file)` raises, the process exits nonzero with the `IOError`
kind, and the output path is untouched — in particular no output file is
created when none existed. -/
theorem c2_missing_input (argv : List String) (w : World)
    (hflags : parseOptions (argv.drop 1) = none)
    (hargs : 2 < argv.length)
    (hin : w.input = none) :
    (runScript argv w).outcome = Outcome.ioError ∧
      exitCode (runScript argv w).outcome = 1 ∧
      (runScript argv w).output = w.outputPre ∧
      (w.outputPre = none → (runScript argv w).output = none) := by
  have h1 := getElem?_of_lt argv 1 (by omega)
  have h2 := getElem?_of_lt argv 2 (by omega)
  unfold runScript
  rw [hflags, h1, h2, hin]
  simp [exitCode]

/-- Claim C2, witness at a concrete invocation with a missing input file
and no pre-existing output file. -/
theorem c2_missing_input_witness :
    parseOptions (["genbank2gff.py", "missing.gb", "out.gff"].drop 1) = none ∧
      2 < (["genbank2gff.py", "missing.gb", "out.gff"] : List String).length ∧
      (World.mk none true none).input = none ∧
      (runScript ["genbank2gff.py", "missing.gb", "out.gff"]
          (World.mk none true none)).output = none := by
  refine ⟨by decide, by decide, rfl, ?_⟩
  exact (c2_missing_input ["genbank2gff.py", "missing.gb", "out.gff"]
    (World.mk none true none) (by decide) (by decide) rfl).2.2.2 rfl

/-- Claim C9: the source opens `in_file` (line 21) before `out_file`
(line 22), so when the input open fails the output handle is never opened
and any pre-existing file at the output path keeps its contents. -/
theorem c9_input_before_output (argv : List String) (w : World)
    (hin : w.input = none) :
    (runScript argv w).outOpened = false ∧
      (runScript argv w).output = w.outputPre := by
  unfold runScript
  split
  · simp
  · split
    · simp
    · simp
    · split
      · simp
      · simp_all

/-- Claim C9, witness: a missing input next to a pre-existing output file
whose contents survive the failed run. -/
theorem c9_input_before_output_witness :
    (World.mk none true (some "keep me")).input = none ∧
      (runScript ["genbank2gff.py", "in.gb", "out.gff"]
          (World.mk none true (some "keep me"))).output = some "keep me" := by
  refine ⟨rfl, ?_⟩
  exact (c9_input_before_output ["genbank2gff.py", "in.gb", "out.gff"]
    (World.mk none true (some "keep me")) rfl).2

lemma runScript_success_output (argv : List String) (w : World)
    (recs : List Record)
    (hflags : parseOptions (argv.drop 1) = none)
    (hargs : 2 < argv.length)
    (hin : w.input = some (recs, false))
    (hw : w.outWritable = true) :
    runScript argv w =
      ⟨Outcome.success, some (GFF_write_text recs), true, true, true, true⟩ := by
  have h1 := getElem?_of_lt argv 1 (by omega)
  have h2 := getElem?_of_lt argv 2 (by omega)
  unfold runScript
  rw [hflags, h1, h2, hin, hw]
  simp

/-- Claim C3: on a successful conversion the output is exactly the
serialization of the parsed records, and the sequence ids of its lines are
the record ids in input order (each repeated once per feature of that
record), so identifiers appear in the output in the order of the
corresponding input records. -/
theorem c3_order_preserved (argv : List String) (w : World)
    (recs : List Record)
    (hflags : parseOptions (argv.drop 1) = none)
    (hargs : 2 < argv.length)
    (hin : w.input = some (recs, false))
    (hw : w.outWritable = true) :
    (runScript argv w).output = some (GFF_write_text recs) ∧
      seqIds (GFF_write_lines recs) = idTrace recs := by
  rw [runScript_success_output argv w recs hflags hargs hin hw]
  exact ⟨rfl, seqIds_GFF_write_lines recs⟩

/-- Claim C3, witness: a two-record input whose line-level sequence ids
come out in input order. -/
theorem c3_order_preserved_witness :
    parseOptions (["genbank2gff.py", "in.gb", "out.gff"].drop 1) = none ∧
      seqIds (GFF_write_lines
        [⟨"SEQ1", [⟨"gene", 1, 10, "+", []⟩, ⟨"CDS", 1, 10, "+", []⟩]⟩,
         ⟨"SEQ2", [⟨"gene", 5, 50, "-", []⟩]⟩]) = ["SEQ1", "SEQ1", "SEQ2"] := by
  refine ⟨by decide, ?_⟩
  have h := c3_order_preserved ["genbank2gff.py", "in.gb", "out.gff"]
    ⟨some ([⟨"SEQ1", [⟨"gene", 1, 10, "+", []⟩, ⟨"CDS", 1, 10, "+", []⟩]⟩,
            ⟨"SEQ2", [⟨"gene", 5, 50, "-", []⟩]⟩], false), true, none⟩
    [⟨"SEQ1", [⟨"gene", 1, 10, "+", []⟩, ⟨"CDS", 1, 10, "+", []⟩]⟩,
     ⟨"SEQ2", [⟨"gene", 5, 50, "-", []⟩]⟩]
    (by decide) (by decide) rfl rfl
  rw [h.2]
  decide

/-- Claim C4, counterexample to the claim as stated: a GenBank file may
contain two records with the same identifier; here N = 2 records yield
feature lines attributable to only one distinct sequence identifier. -/
theorem c4_counterexample :
    let recs : List Record :=
      [⟨"SEQ1", [⟨"gene", 1, 10, "+", []⟩]⟩, ⟨"SEQ1", [⟨"gene", 20, 30, "+", []⟩]⟩]
    (runScript ["genbank2gff.py", "in.gb", "out.gff"]
        ⟨some (recs, false), true, none⟩).output = some (GFF_write_text recs) ∧
      recs.length = 2 ∧
      (firstIds (seqIds (GFF_write_lines recs))).length = 1 := by
  decide

/-- Claim C4 (corrected): when the input records carry pairwise-distinct
identifiers and each record has at least one feature, the distinct sequence
ids of the output feature lines are exactly the input record ids in order —
in particular exactly N of them for N records, none dropped, none
duplicated.  (Two input records sharing an identifier, or a record with no
features, make the distinct-id count fall below N.) -/
theorem c4_distinct_ids (argv : List String) (w : World)
    (recs : List Record)
    (hflags : parseOptions (argv.drop 1) = none)
    (hargs : 2 < argv.length)
    (hin : w.input = some (recs, false))
    (hw : w.outWritable = true)
    (hdist : (recs.map Record.id).Pairwise (· ≠ ·))
    (hfeat : ∀ r ∈ recs, r.features ≠ []) :
    (runScript argv w).output = some (GFF_write_text recs) ∧
      firstIds (seqIds (GFF_write_lines recs)) = recs.map Record.id ∧
      (firstIds (seqIds (GFF_write_lines recs))).length = recs.length := by
  refine ⟨?_, ?_, ?_⟩
  · rw [runScript_success_output argv w recs hflags hargs hin hw]
  · rw [seqIds_GFF_write_lines, firstIds_idTrace recs hdist hfeat]
  · rw [seqIds_GFF_write_lines, firstIds_idTrace recs hdist hfeat,
      List.length_map]

/-- Claim C4, witness: two records with distinct identifiers give exactly
two distinct sequence ids in the output. -/
theorem c4_distinct_ids_witness :
    ((([⟨"SEQ1", [⟨"gene", 1, 10, "+", []⟩]⟩, ⟨"SEQ2", [⟨"gene", 2, 20, "-", []⟩]⟩] :
        List Record).map Record.id).Pairwise (· ≠ ·)) ∧
      (firstIds (seqIds (GFF_write_lines
        [⟨"SEQ1", [⟨"gene", 1, 10, "+", []⟩]⟩,
         ⟨"SEQ2", [⟨"gene", 2, 20, "-", []⟩]⟩]))).length = 2 := by
  refine ⟨by decide, ?_⟩
  have h := c4_distinct_ids ["genbank2gff.py", "in.gb", "out.gff"]
    ⟨some ([⟨"SEQ1", [⟨"gene", 1, 10, "+", []⟩]⟩,
            ⟨"SEQ2", [⟨"gene", 2, 20, "-", []⟩]⟩], false), true, none⟩
    [⟨"SEQ1", [⟨"gene", 1, 10, "+", []⟩]⟩, ⟨"SEQ2", [⟨"gene", 2, 20, "-", []⟩]⟩]
    (by decide) (by decide) rfl rfl (by decide) (by decide)
  exact h.2.2

/-- Claim C5: on malformed GenBank contents the parse failure raised inside
`GFF.write` propagates out uncaught, the process exits nonzero, and the
text already written for the successfully parsed prefix of records remains
at the output path — no cleanup is performed. -/
theorem c5_malformed_input (argv : List String) (w : World)
    (recs : List Record)
    (hflags : parseOptions (argv.drop 1) = none)
    (hargs : 2 < argv.length)
    (hin : w.input = some (recs, true))
    (hw : w.outWritable = true) :
    (runScript argv w).outcome = Outcome.parseError ∧
      exitCode (runScript argv w).outcome = 1 ∧
      (runScript argv w).output = some (GFF_write_text recs) := by
  have h1 := getElem?_of_lt argv 1 (by omega)
  have h2 := getElem?_of_lt argv 2 (by omega)
  unfold runScript
  rw [hflags, h1, h2, hin, hw]
  simp [exitCode]

/-- Claim C5, witness: a file whose first record parses and is written
before the failure; its GFF line remains on disk after the nonzero exit. -/
theorem c5_malformed_input_witness :
    (runScript ["genbank2gff.py", "in.gb", "out.gff"]
        ⟨some ([⟨"SEQ1", [⟨"gene", 1, 10, "+", []⟩]⟩], true), true, none⟩).outcome =
      Outcome.parseError ∧
      (runScript ["genbank2gff.py", "in.gb", "out.gff"]
          ⟨some ([⟨"SEQ1", [⟨"gene", 1, 10, "+", []⟩]⟩], true), true, none⟩).output =
        some "SEQ1\t.\tgene\t1\t10\t.\t+\t.\t\n" := by
  have h := c5_malformed_input ["genbank2gff.py", "in.gb", "out.gff"]
    ⟨some ([⟨"SEQ1", [⟨"gene", 1, 10, "+", []⟩]⟩], true), true, none⟩
    [⟨"SEQ1", [⟨"gene", 1, 10, "+", []⟩]⟩]
    (by decide) (by decide) rfl rfl
  refine ⟨h.1, ?_⟩
  rw [h.2.2]
  rfl

/-- Claim C6: the run is a deterministic function of the command line and
the input file, and `open(out_file, "w")` truncates, so a second run on the
same input and output path reproduces the first run's outcome and leaves
byte-identical contents at the output path. -/
theorem c6_idempotent (argv : List String) (w : World) :
    (runScript argv ⟨w.input, w.outWritable, (runScript argv w).output⟩).outcome =
        (runScript argv w).outcome ∧
      (runScript argv ⟨w.input, w.outWritable, (runScript argv w).output⟩).output =
        (runScript argv w).output := by
  rcases hpo : parseOptions argv.tail with _ | o
  · rcases h1 : argv[1]? with _ | a
    · simp [runScript, hpo, h1]
    · rcases h2 : argv[2]? with _ | b
      · simp [runScript, hpo, h1, h2]
      · rcases hin : w.input with _ | ⟨recs, bad⟩
        · simp [runScript, hpo, h1, h2, hin]
        · rcases hw : w.outWritable with _ | _
          · simp [runScript, hpo, h1, h2, hin, hw]
          · cases bad
            · simp [runScript, hpo, h1, h2, hin, hw]
            · simp [runScript, hpo, h1, h2, hin, hw]
  · simp [runScript, hpo]

/-- Claim C7, counterexample to the claim as stated: invoked with no
positional arguments at all, the program dies on `sys.argv[1]` with an
uncaught `IndexError`, which is not an argument-parsing (`ArgumentError`)
failure — `OptionParser` never checks positional arity. -/
theorem c7_counterexample :
    (runScript ["genbank2gff.py"] ⟨none, true, none⟩).outcome =
        Outcome.indexError ∧
      Outcome.isArgumentError
        (runScript ["genbank2gff.py"] ⟨none, true, none⟩).outcome = false ∧
      exitCode (runScript ["genbank2gff.py"] ⟨none, true, none⟩).outcome = 1 ∧
      (runScript ["genbank2gff.py"] ⟨none, true, none⟩).inOpened = false ∧
      (runScript ["genbank2gff.py"] ⟨none, true, none⟩).outOpened = false := by
  decide

/-- Claim C7 (corrected): with fewer than two positional arguments (and no
recognized or malformed option tokens), the program fails before any file
is opened with a nonzero exit — but the failure is an uncaught `IndexError`
from `sys.argv`, not an `ArgumentError` raised by argument parsing. -/
theorem c7_missing_args (argv : List String) (w : World)
    (hflags : parseOptions (argv.drop 1) = none)
    (hargs : argv[2]? = none) :
    (runScript argv w).outcome = Outcome.indexError ∧
      exitCode (runScript argv w).outcome ≠ 0 ∧
      (runScript argv w).inOpened = false ∧
      (runScript argv w).outOpened = false ∧
      (runScript argv w).output = w.outputPre := by
  rw [List.drop_one] at hflags
  rcases h1 : argv[1]? with _ | a
  · simp [runScript, hflags, h1, exitCode]
  · simp [runScript, hflags, h1, hargs, exitCode]

/-- Claim C7, witness: one positional argument supplied. -/
theorem c7_missing_args_witness :
    parseOptions ((["genbank2gff.py", "only.gb"] : List String).drop 1) = none ∧
      (["genbank2gff.py", "only.gb"] : List String)[2]? = none ∧
      (runScript ["genbank2gff.py", "only.gb"] ⟨none, true, none⟩).outcome =
        Outcome.indexError := by
  refine ⟨by decide, by decide, ?_⟩
  exact (c7_missing_args ["genbank2gff.py", "only.gb"] ⟨none, true, none⟩
    (by decide) (by decide)).1

/-- Claim C8: with the version flag as the first argument,
`parser.parse_args()` prints the fixed version string "0.1" (source line
13) and exits 0; no file is opened, nothing at the output path changes, and
no conversion is performed. -/
theorem c8_version_flag (prog : String) (rest : List String) (w : World) :
    runScript (prog :: "--version" :: rest) w =
      ⟨Outcome.versionExit "0.1", w.outputPre, false, false, false, false⟩ ∧
      exitCode (Outcome.versionExit "0.1") = 0 := by
  constructor
  · have hp : parseOptions ("--version" :: rest) =
        some (Outcome.versionExit "0.1") := rfl
    simp [runScript, hp]
  · rfl

/-- Claim C10: an input that opens and parses to zero records converts
successfully: exit status 0, the output file is created (or truncated to)
the empty serialization, and no per-record feature lines are emitted. -/
theorem c10_empty_input (argv : List String) (w : World)
    (hflags : parseOptions (argv.drop 1) = none)
    (hargs : 2 < argv.length)
    (hin : w.input = some ([], false))
    (hw : w.outWritable = true) :
    (runScript argv w).outcome = Outcome.success ∧
      exitCode (runScript argv w).outcome = 0 ∧
      (runScript argv w).output = some "" ∧
      GFF_write_lines [] = [] := by
  rw [runScript_success_output argv w [] hflags hargs hin hw]
  exact ⟨rfl, rfl, rfl, rfl⟩

/-- Claim C10, witness: a zero-record input with no pre-existing output
file ends with exit 0 and an empty output file present. -/
theorem c10_empty_input_witness :
    (World.mk (some ([], false)) true none).input = some ([], false) ∧
      (runScript ["genbank2gff.py", "empty.gb", "out.gff"]
          (World.mk (some ([], false)) true none)).outcome = Outcome.success ∧
      (runScript ["genbank2gff.py", "empty.gb", "out.gff"]
          (World.mk (some ([], false)) true none)).output = some "" := by
  have h := c10_empty_input ["genbank2gff.py", "empty.gb", "out.gff"]
    (World.mk (some ([], false)) true none) (by decide) (by decide) rfl rfl
  exact ⟨rfl, h.1, h.2.2.1⟩
